import Mathlib

/-!
Shallow embedding of the prox2 confessions bot (src/lib/main.ts and the
event-endpoint handler) and proofs about its moderation workflow,
signature verifier and identity hashing.

External collaborators (node crypto, the Slack Web API, the Airtable
store transport) are modelled as explicit parameters: the key-derivation
and HMAC functions are function arguments, and the success/failure of
each outbound I/O call is an explicit environment record, so every
control path of the source is represented.
-/

namespace Prox2

/-- Record schema of the Airtable `Main` table (interface TableRecord in
src/lib/main.ts). `staging_ts` and `published_ts` are absent until set,
modelled as `Option`; Airtable's unset checkbox reads as false. -/
structure TableRecord where
  id : Nat
  text : String
  approved : Bool
  viewed : Bool
  staging_ts : Option String
  published_ts : Option String
  uid_salt : String
  uid_hash : String
deriving Repr, DecidableEq

/-- A message sitting in a Slack channel: channel id, platform-assigned
timestamp handle, and rendered text. -/
structure Message where
  channel : String
  ts : String
  body : String
deriving Repr, DecidableEq

/-- The shared durable state: the Airtable store (with its id counter)
and the messages currently present in Slack channels. -/
structure World where
  store : List TableRecord
  nextId : Nat
  messages : List Message
deriving Repr, DecidableEq

/-- Channel configuration imported from secrets in the source. -/
structure Config where
  staging_channel : String
  confessions_channel : String
deriving Repr, DecidableEq

/-- Type of the key-derivation function hashUser (crypto.scryptSync,
hex-encoded): identity and salt to digest string. -/
def HashFn : Type := String → String → String

/-- node crypto.timingSafeEqual on the UTF-8 buffers of two strings:
throws a RangeError when the byte lengths differ, otherwise compares. -/
def timingSafeEqual (a b : String) : Except String Bool :=
  if a.utf8ByteSize = b.utf8ByteSize then .ok (a == b)
  else .error "RangeError: Input buffers must have the same byte length"

/-- sameUser from src/lib/main.ts: recompute the digest of the candidate
identity with the stored salt and compare with timingSafeEqual. -/
def sameUser (hashUser : HashFn) (fields : TableRecord) (uid : String) : Except String Bool :=
  timingSafeEqual fields.uid_hash (hashUser uid fields.uid_salt)

/-- JS whitespace skipped by parseInt. -/
def jsWhitespace (c : Char) : Bool :=
  c == ' ' || c == '\t' || c == '\n' || c == '\r' || c == Char.ofNat 11 || c == Char.ofNat 12

/-- Decimal value of a digit list. -/
def digitsToNat (ds : List Char) : Nat :=
  ds.foldl (fun acc c => acc * 10 + (c.toNat - 48)) 0

/-- JS parseInt(s, 10): skip whitespace, optional sign, longest leading
run of decimal digits; `none` models the NaN result. -/
def parseIntJS (s : String) : Option Int :=
  let cs := s.toList.dropWhile jsWhitespace
  let sr : Int × List Char :=
    match cs with
    | c :: rest => if c == '-' then (-1, rest) else if c == '+' then (1, rest) else (1, cs)
    | [] => (1, [])
  let ds := sr.2.takeWhile (fun c => c.isDigit)
  if ds.isEmpty then none
  else some (sr.1 * (digitsToNat ds : Nat))

/-- A Node request header value: absent, a single string, or an array. -/
inductive HeaderVal
  | missing
  | str (s : String)
  | strs (l : List String)
deriving Repr, DecidableEq

/-- The parts of the request that verifySignature reads. -/
structure SlackRequest where
  timestamp_header : HeaderVal
  signature_header : HeaderVal
  rawBody : String
deriving Repr, DecidableEq

/-- verifySignature from src/lib/main.ts. `hmacHex` stands for
hex-encoded HMAC-SHA256 with the signing secret; `now` is
Math.floor(Date.now() / 1000). In the source the freshness test is
Math.abs(now - parseInt(ts, 10)) > 60 * 5, which is false when parseInt
yields NaN, so the NaN case falls through to the signature comparison.
The final comparison is timingSafeEqual, which throws on byte-length
mismatch; that exception propagates (modelled as `.error`). -/
def verifySignature (hmacHex : String → String) (now : Int) (req : SlackRequest) :
    Except String Bool :=
  match req.timestamp_header with
  | .str timestamp =>
    let stale : Bool :=
      match parseIntJS timestamp with
      | some t => (now - t).natAbs > 60 * 5
      | none => false
    if stale then .ok false
    else
      let sig_base := "v0:" ++ timestamp ++ ":" ++ req.rawBody
      let my_sig := "v0=" ++ hmacHex sig_base
      match req.signature_header with
      | .str slack_sig =>
        if slack_sig == "undefined" then .ok false
        else
          match timingSafeEqual my_sig slack_sig with
          | .error e => .error e
          | .ok b => if b then .ok true else .ok false
      | _ => .ok false
  | _ => .ok false

/-- Outcome of a web.chat.postMessage call: an ok response carrying the
new message handle, a non-ok response, or a thrown exception. -/
inductive PostOutcome
  | ok (ts : String)
  | notOk
  | throws
deriving Repr, DecidableEq

/-- Error raised out of stageConfession: the three thrown strings of the
source, plus the uncaught exceptions of web.chat.postMessage and
record.destroy. -/
inductive StageErr
  | insertFailed
  | postFailed
  | updateFailed
  | postException
  | destroyException
deriving Repr, DecidableEq

/-- Behaviour of the external calls made by one stageConfession run. -/
structure StageEnv where
  createThrows : Bool
  post : PostOutcome
  destroyThrows : Bool
  patchThrows : Bool
deriving Repr, DecidableEq

/-- Rendered text of the staging-channel block message. -/
def stagingBlockText (id : Nat) (text : String) : String :=
  "(staging) *" ++ toString id ++ "*: " ++ text

/-- stageConfession from src/lib/main.ts: create the record, post the
staging block message; on an ok=false response destroy the record and
throw, on a post exception propagate without rollback; on success patch
staging_ts onto the record. The result pairs the final world with the
raised error, if any. `uid_salt` stands for crypto.randomBytes(16). -/
def stageConfession (cfg : Config) (hashUser : HashFn) (env : StageEnv)
    (uid_salt message uid : String) (w : World) : World × Option StageErr :=
  let uid_hash := hashUser uid uid_salt
  if env.createThrows then (w, some .insertFailed)
  else
    let record : TableRecord :=
      { id := w.nextId, text := message, approved := false, viewed := false,
        staging_ts := none, published_ts := none,
        uid_salt := uid_salt, uid_hash := uid_hash }
    let w1 : World := { w with store := w.store ++ [record], nextId := w.nextId + 1 }
    match env.post with
    | .throws => (w1, some .postException)
    | .notOk =>
      if env.destroyThrows then (w1, some .destroyException)
      else
        let w2 : World := { w1 with store := w1.store.filter (fun r => r.id != record.id) }
        (w2, some .postFailed)
    | .ok ts =>
      let w2 : World :=
        { w1 with messages :=
            w1.messages ++ [⟨cfg.staging_channel, ts, stagingBlockText record.id record.text⟩] }
      if env.patchThrows then (w2, some .updateFailed)
      else
        let store3 := w2.store.map
          (fun r => if r.id = record.id then { r with staging_ts := some ts } else r)
        ({ w2 with store := store3 }, none)

/-- Error raised out of viewConfession: the thrown strings of the
source, the uncaught exception of the publish postMessage, and the
not-exactly-one-record failure carrying the count. -/
inductive ViewErr
  | fetchFailed
  | publishFailed
  | publishException
  | updateFailed
  | deleteFailed
  | notSingle (n : Nat)
deriving Repr, DecidableEq

/-- Behaviour of the external calls made by one viewConfession run. -/
structure ViewEnv where
  fetchThrows : Bool
  post : PostOutcome
  patchThrows : Bool
  deleteThrows : Bool
deriving Repr, DecidableEq

/-- The store lookup of viewConfession: table.select filtered on
staging_ts, firstPage capped at 100 rows. -/
def findByStagingTimestamp (ts : String) (w : World) : List TableRecord :=
  (w.store.filter (fun r => r.staging_ts == some ts)).take 100

/-- Rendered text of the published confession message. -/
def publishText (id : Nat) (text : String) : String :=
  "*" ++ toString id ++ "*: " ++ text

/-- viewConfession from src/lib/main.ts: look up the unique record by
staging_ts; on exactly one match, publish to the confessions channel
when approved (aborting if the response is not ok, or propagating a
thrown exception), then patch approved/viewed/published_ts, then delete
the staging message. Any other match count throws before any side
effect. -/
def viewConfession (cfg : Config) (env : ViewEnv) (staging_ts : String) (approved : Bool)
    (w : World) : World × Option ViewErr :=
  if env.fetchThrows then (w, some .fetchFailed)
  else
    match findByStagingTimestamp staging_ts w with
    | [record] =>
      let step : Except ViewErr (World × Option String) :=
        if approved then
          match env.post with
          | .throws => .error .publishException
          | .notOk => .error .publishFailed
          | .ok pts =>
            .ok ({ w with messages :=
                    w.messages ++ [⟨cfg.confessions_channel, pts, publishText record.id record.text⟩] },
                 some pts)
        else .ok (w, none)
      match step with
      | .error e => (w, some e)
      | .ok (w1, ts) =>
        if env.patchThrows then (w1, some .updateFailed)
        else
          let store2 := w1.store.map
            (fun r => if r.id = record.id
              then { r with approved := approved, viewed := true, published_ts := ts }
              else r)
          let w2 : World := { w1 with store := store2 }
          if env.deleteThrows then (w2, some .deleteFailed)
          else
            let msgs3 := w2.messages.filter
              (fun m => !(m.channel == cfg.staging_channel && m.ts == staging_ts))
            ({ w2 with messages := msgs3 }, none)
    | rs => (w, some (.notSingle rs.length))

/-- The messages currently in one channel. -/
def messagesIn (ch : String) (w : World) : List Message :=
  w.messages.filter (fun m => m.channel == ch)

/-- A direct-message event as typed in the event endpoint; the runtime
discriminator fields are kept as strings because the handler tests them
at runtime. bot_profile carries the app_id when present. -/
structure DMEvent where
  type : String
  channel_type : String
  text : String
  user : String
  bot_profile : Option String
  channel : String
deriving Repr, DecidableEq

/-- SlackEventPayload of the event endpoint: a url_verification
handshake carrying a challenge, or an event_callback wrapping an inner
event. -/
inductive SlackEventPayload
  | url_verification (token : Option String) (challenge : String)
  | event_callback (event : DMEvent)
deriving Repr, DecidableEq

/-- The observable result of one handler run: HTTP status, response body
(writeHead(...).end() sends none), and the messages posted via
web.chat.postMessage as channel-text pairs. -/
structure HandlerResult where
  status : Nat
  body : Option String
  sent : List (String × String)
deriving Repr, DecidableEq

/-- The reply text sent on a direct message (apostrophe spelled via its
code point). -/
def dmReply (confessions_channel : String) : String :=
  "Uh oh! You can" ++ String.singleton (Char.ofNat 39) ++
    "t DM me! Try typing /prox2 in <#" ++ confessions_channel ++ "> to get started!"

/-- The event-endpoint handler (src/unnamed/part_000): validateNonce
(Modelled from the spec: the Nonce/Replay Guard of section 4.2 is
imported from lib code absent from src; it raises a validation failure
on a replayed delivery, modelled by the `nonceFails` flag, and a failure
yields an immediate 400), then verifySignature (400 when false, the
timingSafeEqual exception propagating otherwise), then dispatch on the
payload type: event_callback direct messages from non-bots get a reply
posted, and every non-rejected request ends with an empty 204 response.
There is no url_verification branch in the source. -/
def handler (hmacHex : String → String) (now : Int) (req : SlackRequest)
    (nonceFails : Bool) (payload : SlackEventPayload) (confessions_channel : String) :
    Except String HandlerResult :=
  if nonceFails then .ok ⟨400, none, []⟩
  else
    match verifySignature hmacHex now req with
    | .error e => .error e
    | .ok false => .ok ⟨400, none, []⟩
    | .ok true =>
      match payload with
      | .event_callback data =>
        if data.type == "message" && data.channel_type == "im" && data.bot_profile.isNone then
          .ok ⟨204, none, [(data.channel, dmReply confessions_channel)]⟩
        else .ok ⟨204, none, []⟩
      | .url_verification _ _ => .ok ⟨204, none, []⟩

/-! Concrete instances used by counterexamples and witnesses. -/

/-- A concrete stand-in hex digest function: constant 64-character
output, the length of a hex-encoded SHA-256 digest. -/
def hmacA : String → String := fun _ => String.mk (List.replicate 64 'a')

/-- The claimed signature matching hmacA. -/
def sigA : String := "v0=" ++ hmacA ""

/-- A concrete stand-in key-derivation function for instantiating
theorems about the hash-parametric workflow. -/
def cHash : HashFn := fun u s => u ++ s

/-- A concrete channel configuration with distinct channels. -/
def cfg0 : Config := ⟨"Cstaging", "Cpublic"⟩

/-- The empty world. -/
def w0 : World := ⟨[], 0, []⟩

/-- A staged record used to instantiate workflow theorems. -/
def rec0 : TableRecord := ⟨7, "hello", false, false, some "11.22", none, "salt", "U123salt"⟩

/-- The staging message of rec0. -/
def msg0 : Message := ⟨"Cstaging", "11.22", "(staging) *7*: hello"⟩

/-- A world holding one staged record and its staging message. -/
def w1 : World := ⟨[rec0], 8, [msg0]⟩

/-! Helper lemmas on lists. -/

theorem map_id_on {α : Type} (f : α → α) (l : List α) (h : ∀ a ∈ l, f a = a) :
    l.map f = l := by
  induction l with
  | nil => rfl
  | cons a t ih =>
    simp only [List.map_cons]
    rw [h a (List.mem_cons_self a t), ih (fun b hb => h b (List.mem_cons_of_mem a hb))]

theorem filter_false_on {α : Type} (p : α → Bool) (l : List α) (h : ∀ a ∈ l, p a = false) :
    l.filter p = [] := by
  induction l with
  | nil => rfl
  | cons a t ih =>
    simp [List.filter_cons, h a (List.mem_cons_self a t)]
    exact fun b hb => h b (List.mem_cons_of_mem a hb)

theorem filter_keep_of {α : Type} (p q : α → Bool) (l : List α)
    (h : ∀ a, p a = true → q a = true) : (l.filter q).filter p = l.filter p := by
  induction l with
  | nil => rfl
  | cons a t ih =>
    by_cases hq : q a = true
    · simp only [List.filter_cons, hq, if_true]
      by_cases hp : p a = true
      · simp [List.filter_cons, hp, ih]
      · simp [List.filter_cons, hp, ih]
    · have hp : p a = false := by
        cases hpa : p a
        · rfl
        · exact absurd (h a hpa) hq
      simp [List.filter_cons, hq, hp, ih]

/-! Claim theorems. -/

/-- Claim C9: sameUser returns true iff the candidate identity hashed with the
record's salt equals the stored digest, and returns false for any other
identity, for every record whose stored digest has the byte length of a
derived digest. -/
theorem sameUser_iff_hash_matches (hashUser : HashFn) (fields : TableRecord) (uid : String)
    (hlen : fields.uid_hash.utf8ByteSize = (hashUser uid fields.uid_salt).utf8ByteSize) :
    (sameUser hashUser fields uid = .ok true ↔
      hashUser uid fields.uid_salt = fields.uid_hash) ∧
    (hashUser uid fields.uid_salt ≠ fields.uid_hash →
      sameUser hashUser fields uid = .ok false) := by
  unfold sameUser timingSafeEqual
  rw [if_pos hlen]
  constructor
  · constructor
    · intro h
      have : (fields.uid_hash == hashUser uid fields.uid_salt) = true := by
        cases hb : fields.uid_hash == hashUser uid fields.uid_salt
        · rw [hb] at h; exact absurd (Except.ok.inj h) Bool.false_ne_true
        · rfl
      exact (eq_of_beq this).symm
    · intro h
      rw [h]
      simp
  · intro h
    have : (fields.uid_hash == hashUser uid fields.uid_salt) = false := by
      cases hb : fields.uid_hash == hashUser uid fields.uid_salt
      · rfl
      · exact absurd (eq_of_beq hb).symm h
    rw [this]

/-- Witness for C9 at a concrete hash function, record, and identity. -/
theorem sameUser_iff_hash_matches_witness :
    (sameUser cHash rec0 "U123" = .ok true ↔ cHash "U123" "salt" = "U123salt") ∧
    (cHash "U123" "salt" ≠ "U123salt" → sameUser cHash rec0 "U123" = .ok false) :=
  sameUser_iff_hash_matches cHash rec0 "U123" rfl

/-- Claim C10: verifySignature is not total: on a request whose claimed
signature header has a byte length different from the 67-byte computed
signature, the constant-time comparison throws instead of returning
false. -/
theorem verifySignature_throws_on_signature_length_mismatch :
    ("v0=" ++ hmacA "v0:1000:").utf8ByteSize = 67 ∧
    ("v0=short" : String).utf8ByteSize ≠ 67 ∧
    verifySignature hmacA 1000 ⟨.str "1000", .str "v0=short", ""⟩ =
      .error "RangeError: Input buffers must have the same byte length" :=
  ⟨rfl, by decide, rfl⟩

/-- Claim C1 counterexample: a timestamp header that parseInt cannot parse
(NaN) bypasses the freshness check, so with a matching signature the
verifier accepts, where the claim demands rejection for every
non-numeric timestamp regardless of the signature. -/
theorem verifySignature_accepts_nonnumeric_timestamp :
    parseIntJS "abc" = none ∧
    verifySignature hmacA 1000 ⟨.str "abc", .str sigA, ""⟩ = .ok true :=
  ⟨rfl, rfl⟩

/-- Claim C1 amended: verifySignature returns false whenever the timestamp
header is absent or not a single string, and whenever it parses via
parseInt to a number differing from current server time by more than 300
seconds, regardless of the claimed signature; a timestamp parsing to NaN
instead falls through to the signature comparison. -/
theorem verifySignature_rejects_missing_or_stale_timestamp
    (hmacHex : String → String) (now : Int) (req : SlackRequest)
    (h : ∀ t, req.timestamp_header = .str t →
      ∃ n, parseIntJS t = some n ∧ (now - n).natAbs > 60 * 5) :
    verifySignature hmacHex now req = .ok false := by
  unfold verifySignature
  cases hts : req.timestamp_header with
  | missing => rfl
  | strs l => rfl
  | str t =>
    obtain ⟨n, hn, hgt⟩ := h t hts
    simp [hn, hgt]

/-- Witness for C1 amended: a numeric timestamp 1000 seconds from now is
rejected. -/
theorem verifySignature_rejects_missing_or_stale_timestamp_witness :
    verifySignature hmacA 0 ⟨.str "1000", .str sigA, ""⟩ = .ok false :=
  verifySignature_rejects_missing_or_stale_timestamp hmacA 0 ⟨.str "1000", .str sigA, ""⟩
    (by
      intro t ht
      cases ht
      exact ⟨1000, by decide, by decide⟩)

/-- Claim C3 counterexample: when the staging post throws (instead of
returning ok false), stageConfession raises but the record created at
the start is not deleted: a lookup by its id still finds it, where the
claim demands rollback for a throwing post as well. -/
theorem stageConfession_post_exception_keeps_record :
    (stageConfession cfg0 cHash ⟨false, .throws, false, false⟩ "salt" "hello" "U123" w0).2 =
      some .postException ∧
    ((stageConfession cfg0 cHash ⟨false, .throws, false, false⟩
        "salt" "hello" "U123" w0).1.store.filter (fun r => r.id == 0)).length = 1 :=
  ⟨rfl, rfl⟩

/-- Claim C3 amended: rollback happens exactly when the staging post returns
ok == false: in that case (destroy succeeding) the created record is
deleted — a lookup by its id finds nothing — and an error is raised;
when the post throws instead, an error propagates but the record is not
deleted. -/
theorem stageConfession_rollback_on_not_ok_only (cfg : Config) (hashUser : HashFn)
    (env : StageEnv) (salt msg uid : String) (w : World)
    (hcreate : env.createThrows = false)
    (hid : ∀ r ∈ w.store, r.id ≠ w.nextId) :
    (env.post = .notOk → env.destroyThrows = false →
      ((stageConfession cfg hashUser env salt msg uid w).1.store.filter
          (fun r => r.id == w.nextId) = [] ∧
        (stageConfession cfg hashUser env salt msg uid w).2 = some .postFailed)) ∧
    (env.post = .throws →
      (((stageConfession cfg hashUser env salt msg uid w).1.store.filter
          (fun r => r.id == w.nextId)).length = 1 ∧
        (stageConfession cfg hashUser env salt msg uid w).2 = some .postException)) := by
  constructor
  · intro hpost hdestroy
    simp only [stageConfession, hcreate, hpost, hdestroy, Bool.false_eq_true, if_false]
    constructor
    · apply filter_false_on
      intro r hr
      have := (List.mem_filter.mp hr).2
      simp only [bne_iff_ne, ne_eq] at this
      simp [this]
    · trivial
  · intro hpost
    simp only [stageConfession, hcreate, hpost, Bool.false_eq_true, if_false]
    constructor
    · rw [List.filter_append, filter_false_on (fun r => r.id == w.nextId) w.store
        (fun r hr => by simp [hid r hr])]
      simp
    · trivial

/-- Witness for C3 amended: a not-ok staging post on the empty world
rolls the record back and raises. -/
theorem stageConfession_rollback_on_not_ok_only_witness :
    ((stageConfession cfg0 cHash ⟨false, .notOk, false, false⟩
        "salt" "hello" "U123" w0).1.store.filter (fun r => r.id == 0) = [] ∧
      (stageConfession cfg0 cHash ⟨false, .notOk, false, false⟩
        "salt" "hello" "U123" w0).2 = some .postFailed) :=
  (stageConfession_rollback_on_not_ok_only cfg0 cHash ⟨false, .notOk, false, false⟩
    "salt" "hello" "U123" w0 rfl (by intro r hr; cases hr)).1 rfl rfl

/-- Claim C4: a successful stageConfession followed by findByStagingTimestamp
on the produced staging_ts returns exactly one record, with approved and
viewed both false, provided the new id and message handle are fresh for
the incoming world. -/
theorem stageConfession_findByStagingTimestamp_roundtrip (cfg : Config) (hashUser : HashFn)
    (env : StageEnv) (salt msg uid ts : String) (w : World)
    (hcreate : env.createThrows = false)
    (hpost : env.post = .ok ts)
    (hpatch : env.patchThrows = false)
    (hid : ∀ r ∈ w.store, r.id ≠ w.nextId)
    (hts : ∀ r ∈ w.store, r.staging_ts ≠ some ts) :
    (stageConfession cfg hashUser env salt msg uid w).2 = none ∧
    findByStagingTimestamp ts (stageConfession cfg hashUser env salt msg uid w).1 =
      [{ id := w.nextId, text := msg, approved := false, viewed := false,
         staging_ts := some ts, published_ts := none,
         uid_salt := salt, uid_hash := hashUser uid salt }] := by
  simp only [stageConfession, hcreate, hpost, hpatch, Bool.false_eq_true, if_false]
  constructor
  · trivial
  · unfold findByStagingTimestamp
    simp only [List.map_append]
    rw [map_id_on _ w.store (fun r hr => by simp [hid r hr])]
    rw [List.filter_append, filter_false_on _ w.store (fun r hr => by simp [hts r hr])]
    simp

/-- Witness for C4: staging "hello" on the empty world and looking the
produced handle up returns exactly the new unviewed, unapproved
record. -/
theorem stageConfession_findByStagingTimestamp_roundtrip_witness :
    (stageConfession cfg0 cHash ⟨false, .ok "11.22", false, false⟩
      "salt" "hello" "U123" w0).2 = none ∧
    findByStagingTimestamp "11.22"
      (stageConfession cfg0 cHash ⟨false, .ok "11.22", false, false⟩
        "salt" "hello" "U123" w0).1 =
      [{ id := 0, text := "hello", approved := false, viewed := false,
         staging_ts := some "11.22", published_ts := none,
         uid_salt := "salt", uid_hash := cHash "U123" "salt" }] :=
  stageConfession_findByStagingTimestamp_roundtrip cfg0 cHash
    ⟨false, .ok "11.22", false, false⟩ "salt" "hello" "U123" "11.22" w0
    rfl rfl rfl (by intro r hr; cases hr) (by intro r hr; cases hr)

/-- Claim C5: when the store lookup for a staging_ts yields zero records or
more than one, viewConfession raises and leaves the world unchanged: no
message is posted or deleted and no record is mutated. -/
theorem viewConfession_no_single_match_no_side_effects (cfg : Config) (env : ViewEnv)
    (sts : String) (approved : Bool) (w : World)
    (h : (findByStagingTimestamp sts w).length ≠ 1) :
    ∃ e, viewConfession cfg env sts approved w = (w, some e) := by
  by_cases hf : env.fetchThrows = true
  · exact ⟨.fetchFailed, by simp [viewConfession, hf]⟩
  · rw [Bool.not_eq_true] at hf
    cases hrec : findByStagingTimestamp sts w with
    | nil =>
      exact ⟨.notSingle 0, by simp [viewConfession, hf, hrec]⟩
    | cons a t =>
      cases t with
      | nil => exact absurd (by rw [hrec]; rfl) h
      | cons b t2 =>
        exact ⟨.notSingle (a :: b :: t2).length,
          by simp [viewConfession, hf, hrec]⟩

/-- Witness for C5: looking up an absent staging_ts in the empty world
raises and changes nothing. -/
theorem viewConfession_no_single_match_no_side_effects_witness :
    (findByStagingTimestamp "zz" w0).length ≠ 1 ∧
    ∃ e, viewConfession cfg0 ⟨false, .notOk, false, false⟩ "zz" true w0 = (w0, some e) :=
  ⟨by decide,
    viewConfession_no_single_match_no_side_effects cfg0 ⟨false, .notOk, false, false⟩
      "zz" true w0 (by decide)⟩

/-- Claim C6: approving an existing staged record when the public post
responds ok == false aborts the whole transition with an error: the
world is unchanged, so the record keeps viewed = false and its approved
value, and the staging message is not deleted. -/
theorem viewConfession_publish_not_ok_aborts (cfg : Config) (env : ViewEnv)
    (sts : String) (w : World) (rcd : TableRecord)
    (hfetch : env.fetchThrows = false)
    (hpost : env.post = .notOk)
    (hrec : findByStagingTimestamp sts w = [rcd]) :
    viewConfession cfg env sts true w = (w, some .publishFailed) := by
  simp [viewConfession, hfetch, hrec, hpost]

/-- Witness for C6 on a one-record world. -/
theorem viewConfession_publish_not_ok_aborts_witness :
    viewConfession cfg0 ⟨false, .notOk, false, false⟩ "11.22" true w1 =
      (w1, some .publishFailed) :=
  viewConfession_publish_not_ok_aborts cfg0 ⟨false, .notOk, false, false⟩
    "11.22" w1 rec0 rfl rfl (by decide)

/-- Claim C7: a fully successful approval posts exactly one message to the
public channel, rendered from the record's id and text only, updates the
record to approved = true, viewed = true with published_ts the new
handle, and deletes the staging message. -/
theorem viewConfession_approve_success_effects (cfg : Config) (env : ViewEnv)
    (sts pts : String) (w : World) (rcd : TableRecord)
    (hfetch : env.fetchThrows = false)
    (hpost : env.post = .ok pts)
    (hpatch : env.patchThrows = false)
    (hdel : env.deleteThrows = false)
    (hrec : findByStagingTimestamp sts w = [rcd])
    (hch : cfg.staging_channel ≠ cfg.confessions_channel) :
    (viewConfession cfg env sts true w).2 = none ∧
    messagesIn cfg.confessions_channel (viewConfession cfg env sts true w).1 =
      messagesIn cfg.confessions_channel w ++
        [⟨cfg.confessions_channel, pts, publishText rcd.id rcd.text⟩] ∧
    (∀ r ∈ (viewConfession cfg env sts true w).1.store, r.id = rcd.id →
      r.approved = true ∧ r.viewed = true ∧ r.published_ts = some pts) ∧
    (viewConfession cfg env sts true w).1.messages.filter
      (fun m => m.channel == cfg.staging_channel && m.ts == sts) = [] := by
  have hw : viewConfession cfg env sts true w =
      (⟨w.store.map (fun r => if r.id = rcd.id
          then { r with approved := true, viewed := true, published_ts := some pts }
          else r),
        w.nextId,
        (w.messages ++ [(⟨cfg.confessions_channel, pts, publishText rcd.id rcd.text⟩ : Message)]).filter
          (fun m => !(m.channel == cfg.staging_channel && m.ts == sts))⟩,
       none) := by
    simp [viewConfession, hfetch, hrec, hpost, hpatch, hdel]
  rw [hw]
  refine ⟨rfl, ?_, ?_, ?_⟩
  · unfold messagesIn
    rw [filter_keep_of _ _ _ ?side]
    case side =>
      intro m hm
      have hc : m.channel = cfg.confessions_channel := by
        have := eq_of_beq hm
        exact this
      have hns : (m.channel == cfg.staging_channel) = false := by
        rw [hc]
        have : cfg.confessions_channel ≠ cfg.staging_channel := fun h => hch h.symm
        simpa using this
      simp [hns]
    rw [List.filter_append]
    simp
  · intro r hr hrid
    obtain ⟨s, hs, hfs⟩ := List.mem_map.mp hr
    by_cases hsid : s.id = rcd.id
    · rw [if_pos hsid] at hfs
      rw [← hfs]
      exact ⟨rfl, rfl, rfl⟩
    · rw [if_neg hsid] at hfs
      rw [← hfs] at hrid
      exact absurd hrid hsid
  · apply filter_false_on
    intro m hm
    have := (List.mem_filter.mp hm).2
    cases hq : (m.channel == cfg.staging_channel && m.ts == sts)
    · rfl
    · rw [hq] at this
      exact absurd this (by decide)

/-- Witness for C7 on a one-record world with a fresh publish handle. -/
theorem viewConfession_approve_success_effects_witness :
    (viewConfession cfg0 ⟨false, .ok "99.1", false, false⟩ "11.22" true w1).2 = none ∧
    messagesIn cfg0.confessions_channel
        (viewConfession cfg0 ⟨false, .ok "99.1", false, false⟩ "11.22" true w1).1 =
      messagesIn cfg0.confessions_channel w1 ++
        [⟨cfg0.confessions_channel, "99.1", publishText rec0.id rec0.text⟩] ∧
    (∀ r ∈ (viewConfession cfg0 ⟨false, .ok "99.1", false, false⟩ "11.22" true w1).1.store,
      r.id = rec0.id →
        r.approved = true ∧ r.viewed = true ∧ r.published_ts = some "99.1") ∧
    (viewConfession cfg0 ⟨false, .ok "99.1", false, false⟩ "11.22" true w1).1.messages.filter
      (fun m => m.channel == cfg0.staging_channel && m.ts == "11.22") = [] :=
  viewConfession_approve_success_effects cfg0 ⟨false, .ok "99.1", false, false⟩
    "11.22" "99.1" w1 rec0 rfl rfl rfl rfl (by decide) (by decide)

/-- Claim C8: a fully successful disapproval posts nothing to the public
channel, updates the record to approved = false, viewed = true with
published_ts cleared, and deletes the staging message. -/
theorem viewConfession_disapprove_success_effects (cfg : Config) (env : ViewEnv)
    (sts : String) (w : World) (rcd : TableRecord)
    (hfetch : env.fetchThrows = false)
    (hpatch : env.patchThrows = false)
    (hdel : env.deleteThrows = false)
    (hrec : findByStagingTimestamp sts w = [rcd])
    (hch : cfg.staging_channel ≠ cfg.confessions_channel) :
    (viewConfession cfg env sts false w).2 = none ∧
    messagesIn cfg.confessions_channel (viewConfession cfg env sts false w).1 =
      messagesIn cfg.confessions_channel w ∧
    (∀ r ∈ (viewConfession cfg env sts false w).1.store, r.id = rcd.id →
      r.approved = false ∧ r.viewed = true ∧ r.published_ts = none) ∧
    (viewConfession cfg env sts false w).1.messages.filter
      (fun m => m.channel == cfg.staging_channel && m.ts == sts) = [] := by
  have hw : viewConfession cfg env sts false w =
      (⟨w.store.map (fun r => if r.id = rcd.id
          then { r with approved := false, viewed := true, published_ts := none }
          else r),
        w.nextId,
        w.messages.filter
          (fun m => !(m.channel == cfg.staging_channel && m.ts == sts))⟩,
       none) := by
    simp [viewConfession, hfetch, hrec, hpatch, hdel]
  rw [hw]
  refine ⟨rfl, ?_, ?_, ?_⟩
  · unfold messagesIn
    rw [filter_keep_of _ _ _ ?side2]
    case side2 =>
      intro m hm
      have hc : m.channel = cfg.confessions_channel := eq_of_beq hm
      have hns : (m.channel == cfg.staging_channel) = false := by
        rw [hc]
        have : cfg.confessions_channel ≠ cfg.staging_channel := fun h => hch h.symm
        simpa using this
      simp [hns]
  · intro r hr hrid
    obtain ⟨s, hs, hfs⟩ := List.mem_map.mp hr
    by_cases hsid : s.id = rcd.id
    · rw [if_pos hsid] at hfs
      rw [← hfs]
      exact ⟨rfl, rfl, rfl⟩
    · rw [if_neg hsid] at hfs
      rw [← hfs] at hrid
      exact absurd hrid hsid
  · apply filter_false_on
    intro m hm
    have := (List.mem_filter.mp hm).2
    cases hq : (m.channel == cfg.staging_channel && m.ts == sts)
    · rfl
    · rw [hq] at this
      exact absurd this (by decide)

/-- Witness for C8 on a one-record world. -/
theorem viewConfession_disapprove_success_effects_witness :
    (viewConfession cfg0 ⟨false, .notOk, false, false⟩ "11.22" false w1).2 = none ∧
    messagesIn cfg0.confessions_channel
        (viewConfession cfg0 ⟨false, .notOk, false, false⟩ "11.22" false w1).1 =
      messagesIn cfg0.confessions_channel w1 ∧
    (∀ r ∈ (viewConfession cfg0 ⟨false, .notOk, false, false⟩ "11.22" false w1).1.store,
      r.id = rec0.id →
        r.approved = false ∧ r.viewed = true ∧ r.published_ts = none) ∧
    (viewConfession cfg0 ⟨false, .notOk, false, false⟩ "11.22" false w1).1.messages.filter
      (fun m => m.channel == cfg0.staging_channel && m.ts == "11.22") = [] :=
  viewConfession_disapprove_success_effects cfg0 ⟨false, .notOk, false, false⟩
    "11.22" w1 rec0 rfl rfl rfl (by decide) (by decide)

/-- Claim C2: on an authenticated url_verification payload the handler
responds 204 with an empty body and posts nothing: the challenge value
is never echoed, contradicting the handshake requirement. -/
theorem handler_url_verification_returns_204_no_body :
    handler hmacA 1000 ⟨.str "1000", .str sigA, ""⟩ false
      (.url_verification none "chal123") "Cpublic" = .ok ⟨204, none, []⟩ :=
  rfl

end Prox2
